import Mathlib

/-!
Verification development for the youtube-assistant repository
(single source file assistant.py, class YouTubeSummarizer).

The Python code is shallowly embedded as executable Lean definitions.
External services (YouTube data API, transcript extraction, OpenAI
completion and TTS, the clipboard, the file system) are passed in as
explicit oracle parameters or association-list states; a raised Python
exception is modelled as a none or Except.error result carrying the same
message string the source builds.  Regular-expression searches in the
source are all of the shape: alternation of literal prefixes followed by
one greedy nonempty character-class capture; they are embedded as a
leftmost scan (reSearchCap below) that at each position takes the first
alternative whose literal part matches and captures the maximal run of
class characters after it, exactly the semantics of re.search for these
patterns (the alternatives are pairwise exclusive at any one position).
-/

namespace YT

/-- Boolean list-prefix test, matching on the needle first so that it
reduces definitionally on concrete needles even when the haystack has a
symbolic tail.  Used to embed literal parts of the regular expressions. -/
def lpre : List Char → List Char → Bool
  | [], _ => true
  | a :: as, l =>
    match l with
    | [] => false
    | b :: bs => a == b && lpre as bs

/-- Leftmost search for a literal needle, embedding re.search of a
regex-escaped literal (truthiness only). -/
def subOccurs (needle : List Char) : List Char → Bool
  | [] => needle.isEmpty
  | c :: rest => lpre needle (c :: rest) || subOccurs needle rest

/-- Embedding of re.search for patterns of the shape
(lit1|lit2|...)([^class]+): scan left to right; at the first position
where one of the literal alternatives matches and is followed by at
least one character accepted by allowed, return the maximal such run
(the capturing group); otherwise keep scanning; none if no position
matches. -/
def reSearchCap (ps : List (List Char)) (allowed : Char → Bool) : List Char → Option (List Char)
  | [] => none
  | c :: rest =>
    match ps.find? (fun p => lpre p (c :: rest)) with
    | none => reSearchCap ps allowed rest
    | some p =>
      match ((c :: rest).drop p.length).takeWhile allowed with
      | [] => reSearchCap ps allowed rest
      | cap => some cap

/-- Characters excluded by the capture class of the video and playlist
patterns, the regex class of ampersand, newline, question mark, hash. -/
def vidExcluded (c : Char) : Bool := c == '&' || c == '\n' || c == '?' || c == '#'

/-- Complement of vidExcluded: the characters the capture may contain. -/
def vidAllowed (c : Char) : Bool := !vidExcluded c

/-- Characters other than a slash, the capture class of the channel
patterns. -/
def nonSlash (c : Char) : Bool := !(c == '/')

/-- Alphabet of YouTube video identifiers: ASCII alphanumeric characters
plus hyphen and underscore.  Used to quantify over embedded ids in the
URL-shape statements. -/
def vidIdChar (c : Char) : Bool := c.isAlphanum || c == '-' || c == '_'

/-- Literal alternatives of the first video pattern in
extract_video_id. -/
def vidPattern1 : List (List Char) :=
  ["youtube.com/watch?v=".data, "youtu.be/".data, "youtube.com/embed/".data]

/-- Literal part of the second video pattern in extract_video_id. -/
def vidPattern2 : List (List Char) := ["youtube.com/v/".data]

/-- Literal parts of the four channel patterns in _is_channel_url. -/
def channelPatterns : List (List Char) :=
  ["youtube.com/channel/".data, "youtube.com/c/".data, "youtube.com/@".data,
   "youtube.com/user/".data]

/-- Literal alternatives of the first playlist pattern, the character
class of question mark or ampersand followed by list=. -/
def listPattern1 : List (List Char) := ["?list=".data, "&list=".data]

/-- Literal part of the second playlist pattern. -/
def listPattern2 : List (List Char) := ["youtube.com/playlist?list=".data]

/-- Embedding of the Python str.isalnum test (ASCII reading): nonempty
and every character alphanumeric. -/
def str_isalnum (s : String) : Bool := !s.data.isEmpty && s.data.all Char.isAlphanum

/-- Embedding of YouTubeSummarizer.extract_video_id: an 11 character
alphanumeric input is returned unchanged; otherwise the two URL patterns
are tried in order; on no match the ValueError message is produced. -/
def extract_video_id (url_or_id : String) : Except String String :=
  if url_or_id.length == 11 && str_isalnum url_or_id then .ok url_or_id
  else
    match reSearchCap vidPattern1 vidAllowed url_or_id.data with
    | some cap => .ok (String.mk cap)
    | none =>
      match reSearchCap vidPattern2 vidAllowed url_or_id.data with
      | some cap => .ok (String.mk cap)
      | none => .error ("Could not extract video ID from: " ++ url_or_id)

/-- Embedding of YouTubeSummarizer._is_channel_url: true when any of
the four channel patterns matches somewhere in the URL, each requiring
at least one non-slash character after its literal part. -/
def _is_channel_url (url : String) : Bool :=
  (reSearchCap channelPatterns nonSlash url.data).isSome

/-- Embedding of YouTubeSummarizer._is_playlist_url: the string contains
the substring list= or the substring playlist. -/
def _is_playlist_url (url : String) : Bool :=
  subOccurs "list=".data url.data || subOccurs "playlist".data url.data

/-- Message raised by extract_playlist_id when given a channel URL. -/
def channelUrlMsg : String :=
  "This appears to be a channel URL, not a playlist URL. Use the \x27channel\x27 command instead."

/-- Embedding of YouTubeSummarizer.extract_playlist_id: a 34 character
input starting with PL is returned unchanged; else a channel URL is
rejected; else the two list patterns are tried in order. -/
def extract_playlist_id (url_or_id : String) : Except String String :=
  if url_or_id.length == 34 && lpre "PL".data url_or_id.data then .ok url_or_id
  else if _is_channel_url url_or_id then .error channelUrlMsg
  else
    match reSearchCap listPattern1 vidAllowed url_or_id.data with
    | some cap => .ok (String.mk cap)
    | none =>
      match reSearchCap listPattern2 vidAllowed url_or_id.data with
      | some cap => .ok (String.mk cap)
      | none => .error ("Could not extract playlist ID from: " ++ url_or_id)

/-- Message raised by get_url_from_clipboard when pyperclip is not
installed. -/
def clipboardRequiresMsg : String :=
  "Clipboard functionality requires pyperclip. Install with: pip install pyperclip"

/-- Message built by get_url_from_clipboard for clipboard content that
is not a YouTube URL (the source interpolates the first 100 characters
of the content). -/
def clipboardInvalidMsg (content : String) : String :=
  "Clipboard doesn\x27t contain a YouTube URL. Found: " ++ content.take 100 ++ "..."

/-- Wrapper message of the outer except clause of
get_url_from_clipboard. -/
def clipboardWrapMsg (inner : String) : String :=
  "Could not read from clipboard: " ++ inner

/-- Embedding of the Python str.strip call on the pasted clipboard
content: leading and trailing whitespace characters are removed.
Defined structurally on the character list so that it evaluates by
kernel reduction. -/
def pyStrip (s : String) : String :=
  String.mk (((s.data.dropWhile Char.isWhitespace).reverse.dropWhile Char.isWhitespace).reverse)

/-- Embedding of YouTubeSummarizer.get_url_from_clipboard.  The
pyperclip import result and the paste call are oracle inputs; a failing
paste carries its exception text.  Note that in the source the raise for
non-YouTube content sits inside the try block, so its message is
re-wrapped by the outer except clause. -/
def get_url_from_clipboard (clipboardAvailable : Bool)
    (pasteResult : Except String String) : Except String String :=
  if !clipboardAvailable then .error clipboardRequiresMsg
  else
    match pasteResult with
    | .error e => .error (clipboardWrapMsg e)
    | .ok raw =>
      let content := pyStrip raw
      if subOccurs "youtube.com".data content.data
          || subOccurs "youtu.be".data content.data then .ok content
      else .error (clipboardWrapMsg (clipboardInvalidMsg content))

/-- One timed transcript segment as returned by the extraction service;
the float fields are embedded as rationals. -/
structure TranscriptEntry where
  text : String
  start : Rat
  duration : Rat
deriving DecidableEq

/-- Snippet part of a videos().list item, the fields the source
reads. -/
structure VideoInfo where
  title : String
  channelTitle : String
  publishedAt : String
deriving DecidableEq

/-- The JSON record written per video, with the same fields the source
assembles in download_transcript.  The summaries dict is embedded as an
association list in insertion order. -/
structure TranscriptRecord where
  video_id : String
  title : String
  channel : String
  published_at : String
  transcript : List TranscriptEntry
  full_text : String
  summaries : List (String × String)
deriving DecidableEq

/-- External services of the summarizer: videos().list snippet lookup
(none for an empty items array), the transcript extraction call (none
when it raises) and the chat completion call, keyed by the user prompt;
the fixed model name, system message, max_tokens and temperature of the
source are constants of that call and are not part of the key. -/
structure Env where
  videoInfo : String → Option VideoInfo
  fetchTranscript : String → Option (List TranscriptEntry)
  complete : String → String

/-- Embedding of the re.sub sanitization in get_transcript_path: every
character of the class of angle brackets, colon, double quote, slash,
backslash, pipe, question mark and star becomes an underscore. -/
def sanitize (s : String) : String :=
  String.mk (s.data.map fun c =>
    if c == '<' || c == '>' || c == ':' || c == '"' || c == '/' || c == '\\' ||
        c == '|' || c == '?' || c == '*' then '_' else c)

/-- Embedding of YouTubeSummarizer.get_transcript_path: a metadata
lookup (network call) followed by the path
transcripts/(sanitized channel)/(video id)_(sanitized title).json;
none when the lookup finds no items. -/
def get_transcript_path (env : Env) (video_id : String) : Option String :=
  (env.videoInfo video_id).map fun info =>
    "transcripts/" ++ sanitize info.channelTitle ++ "/" ++ video_id ++ "_"
      ++ sanitize info.title ++ ".json"

/-- Embedding of YouTubeSummarizer.download_transcript over an explicit
file store (path to parsed record, newest write first).  The result
carries the record, the store after the call and the number of
transcript extraction calls made; none embeds a raised exception.
A JSON file round-trips to the record it was written from. -/
def download_transcript (env : Env) (fs : List (String × TranscriptRecord))
    (video_id : String) :
    Option (TranscriptRecord × List (String × TranscriptRecord) × Nat) :=
  match get_transcript_path env video_id with
  | none => none
  | some path =>
    match fs.lookup path with
    | some rec => some (rec, fs, 0)
    | none =>
      match env.fetchTranscript video_id with
      | none => none
      | some transcript_list =>
        match env.videoInfo video_id with
        | none => none
        | some info =>
          let record : TranscriptRecord :=
            { video_id := video_id
              title := info.title
              channel := info.channelTitle
              published_at := info.publishedAt
              transcript := transcript_list
              full_text := String.intercalate " " (transcript_list.map (·.text))
              summaries := [] }
          some (record, (path, record) :: fs, 1)

/-- Embedding of template.format(transcript=...): the single
placeholder, written here with escaped braces, is replaced by the full
text.  Malformed-template errors are out of scope of the claims. -/
def formatTranscript (template full_text : String) : String :=
  template.replace "\x7btranscript\x7d" full_text

/-- Embedding of YouTubeSummarizer.summarize_transcript.  The prompt
template loader (file backed in the source) is an oracle.  On a cache
hit the stored summary is returned with no completion call; on a miss
the completion service is called once, the summary is appended to the
summaries of the record, and the whole record is rewritten to its
storage path (which needs a metadata lookup; none embeds that lookup
raising).  The last component counts completion calls. -/
def summarize_transcript (env : Env) (loadTemplate : String → String)
    (fs : List (String × TranscriptRecord)) (transcript_data : TranscriptRecord)
    (prompt_template : String) :
    Option (String × TranscriptRecord × List (String × TranscriptRecord) × Nat) :=
  match transcript_data.summaries.lookup prompt_template with
  | some s => some (s, transcript_data, fs, 0)
  | none =>
    let template := loadTemplate prompt_template
    let prompt := formatTranscript template transcript_data.full_text
    let summary := env.complete prompt
    let data' := { transcript_data with
                   summaries := transcript_data.summaries ++ [(prompt_template, summary)] }
    match get_transcript_path env transcript_data.video_id with
    | none => none
    | some path => some (summary, data', (path, data') :: fs, 1)

/-- Embedding of YouTubeSummarizer.get_audio_path: the fixed path
audio/(video id)_(template)_openai.mp3; the requested voice is not part
of the path. -/
def get_audio_path (video_id template_name : String) : String :=
  "audio/" ++ video_id ++ "_" ++ template_name ++ "_openai.mp3"

/-- Embedding of YouTubeSummarizer.play_summary_audio over an explicit
audio store mapping a path to a file size.  When the file exists with
nonzero size the cached file is played and the speech service is not
called; otherwise generate_openai_audio synthesizes (one TTS call, keyed
on summary text and voice, giving the written size) and the file is
written.  Playback itself has no observable effect here.  The second
component counts TTS calls. -/
def play_summary_audio (ttsSize : String → String → Nat)
    (afs : List (String × Nat)) (summary video_id template_name voice : String) :
    List (String × Nat) × Nat :=
  let audio_path := get_audio_path video_id template_name
  match afs.lookup audio_path with
  | some sz =>
    if sz > 0 then (afs, 0)
    else ((audio_path, ttsSize summary voice) :: afs, 1)
  | none => ((audio_path, ttsSize summary voice) :: afs, 1)

/-- One playlistItems().list response: the video ids of its items and
the optional continuation token. -/
structure Page where
  items : List String
  nextPageToken : Option String

/-- External listing service: channels().list giving the uploads
playlist ids of the returned items (empty list for no items), and
playlistItems().list keyed by playlist id, page token and the
maxResults request parameter. -/
structure ListEnv where
  channelUploads : String → List String
  playlistItems : String → Option String → Nat → Page

/-- Embedding of the pagination while loop shared by get_channel_videos
and get_playlist_videos: while fewer than max_results ids are collected,
request min 50 (max_results - collected) items with the current token,
append the returned ids, and stop when the response has no token.  The
loop in the source has no fuel; fuel here only bounds the unfolding and
none means the bound was hit.  The second result component records the
maxResults parameter of every request issued, in order. -/
def fetchLoop (pageOf : Option String → Nat → Page) (max_results : Nat) :
    Nat → List String → Option String → Option (List String × List Nat)
  | 0, _, _ => none
  | fuel + 1, videos, token =>
    if videos.length < max_results then
      let req := min 50 (max_results - videos.length)
      let page := pageOf token req
      let videos' := videos ++ page.items
      match page.nextPageToken with
      | none => some (videos', [req])
      | some t =>
        (fetchLoop pageOf max_results fuel videos' (some t)).map fun r => (r.1, req :: r.2)
    else some (videos, [])

/-- Message raised by get_channel_videos when given a playlist URL. -/
def playlistUrlMsg : String :=
  "This appears to be a playlist URL, not a channel URL. Use the \x27playlist\x27 command instead."

/-- Message raised by get_channel_videos when the channel lookup returns
no items. -/
def channelNotFoundMsg (channel_id : String) : String :=
  "Channel not found: " ++ channel_id

/-- Embedding of YouTubeSummarizer.get_channel_videos: reject playlist
URLs, resolve the uploads playlist of the channel (error when the
channel lookup has no items), then paginate with fetchLoop. -/
def get_channel_videos (env : ListEnv) (channel_id : String) (max_results fuel : Nat) :
    Except String (Option (List String × List Nat)) :=
  if _is_playlist_url channel_id then .error playlistUrlMsg
  else
    match env.channelUploads channel_id with
    | [] => .error (channelNotFoundMsg channel_id)
    | uploads :: _ => .ok (fetchLoop (env.playlistItems uploads) max_results fuel [] none)

/-- Embedding of YouTubeSummarizer.get_playlist_videos: the same
pagination loop run directly against the given playlist id. -/
def get_playlist_videos (env : ListEnv) (playlist_id : String) (max_results fuel : Nat) :
    Option (List String × List Nat) :=
  fetchLoop (env.playlistItems playlist_id) max_results fuel [] none

/-! Helper lemmas about the regex-search embedding. -/

/-- The boolean prefix test agrees with the list prefix relation. -/
theorem lpre_iff (l l' : List Char) : lpre l l' = true ↔ l <+: l' := by
  induction l generalizing l' with
  | nil => simp [lpre]
  | cons a as ih =>
    cases l' with
    | nil => simp [lpre]
    | cons b bs =>
      simp [lpre, Bool.and_eq_true, beq_iff_eq, ih, List.cons_prefix_cons]

/-- A list is a prefix of itself extended by anything, boolean form. -/
theorem lpre_append_self (l t : List Char) : lpre l (l ++ t) = true := by
  induction l with
  | nil => rfl
  | cons a as ih => simp [lpre, ih]

/-- takeWhile keeps a list all of whose elements satisfy the predicate. -/
theorem takeWhile_eq_self_of_all {p : Char → Bool} {l : List Char}
    (h : ∀ c ∈ l, p c = true) : l.takeWhile p = l := by
  induction l with
  | nil => rfl
  | cons a as ih =>
    have ha := h a (by simp)
    simp only [List.takeWhile_cons, ha, if_true, List.cons.injEq, true_and]
    exact ih fun c hc => h c (List.mem_cons_of_mem _ hc)

/-- Scanning step when no alternative matches at the current position. -/
theorem reSearchCap_cons_of_find_none (ps : List (List Char)) (allowed : Char → Bool)
    (c : Char) (rest : List Char)
    (h : ps.find? (fun p => lpre p (c :: rest)) = none) :
    reSearchCap ps allowed (c :: rest) = reSearchCap ps allowed rest := by
  simp only [reSearchCap, h]

/-- Scanning step when some alternative matches at the current position. -/
theorem reSearchCap_cons_of_find_some (ps : List (List Char)) (allowed : Char → Bool)
    (c : Char) (rest : List Char) (p : List Char)
    (h : ps.find? (fun q => lpre q (c :: rest)) = some p) :
    reSearchCap ps allowed (c :: rest) =
      match ((c :: rest).drop p.length).takeWhile allowed with
      | [] => reSearchCap ps allowed rest
      | cap => some cap := by
  simp only [reSearchCap, h]

/-- The scan skips over a region none of whose characters can start any
alternative. -/
theorem reSearchCap_append_skip (ps : List (List Char)) (allowed : Char → Bool)
    (pre suf : List Char)
    (hne : ∀ p ∈ ps, p ≠ [])
    (hhead : ∀ p ∈ ps, ∀ c ∈ pre, p.head? ≠ some c) :
    reSearchCap ps allowed (pre ++ suf) = reSearchCap ps allowed suf := by
  induction pre with
  | nil => rfl
  | cons d pre ih =>
    have hfind : ps.find? (fun p => lpre p (d :: (pre ++ suf))) = none := by
      rw [List.find?_eq_none]
      intro p hp
      cases p with
      | nil => exact absurd rfl (hne _ hp)
      | cons a as =>
        have hne' : a ≠ d := fun had => hhead _ hp d (by simp) (by rw [had]; rfl)
        simp [lpre, Bool.and_eq_true, beq_iff_eq, hne']
    rw [List.cons_append, reSearchCap_cons_of_find_none _ _ _ _ hfind]
    exact ih fun p hp c hc => hhead p hp c (List.mem_cons_of_mem _ hc)

/-- When an alternative matches exactly at the start and the whole rest
of the input lies in the capture class, the captured group is that whole
rest. -/
theorem reSearchCap_append_hit (ps : List (List Char)) (allowed : Char → Bool)
    (p suf : List Char)
    (hfind : ps.find? (fun q => lpre q (p ++ suf)) = some p)
    (hp : p ≠ [])
    (htw : suf.takeWhile allowed = suf)
    (hsuf : suf ≠ []) :
    reSearchCap ps allowed (p ++ suf) = some suf := by
  cases p with
  | nil => exact absurd rfl hp
  | cons a p' =>
    rw [List.cons_append] at hfind ⊢
    rw [reSearchCap_cons_of_find_some _ _ _ _ _ hfind]
    have hd : (a :: (p' ++ suf)).drop (a :: p').length = suf := by
      rw [List.length_cons, List.drop_succ_cons, List.drop_left]
    rw [hd, htw]
    cases suf with
    | nil => exact absurd rfl hsuf
    | cons s ss => rfl

/-- The scan finds nothing in a string all of whose characters lie in an
alphabet that misses at least one character of every alternative. -/
theorem reSearchCap_eq_none_of_good (ps : List (List Char)) (allowed good : Char → Bool)
    (suf : List Char)
    (hsuf : ∀ c ∈ suf, good c = true)
    (hbad : ∀ p ∈ ps, ∃ c ∈ p, good c = false) :
    reSearchCap ps allowed suf = none := by
  induction suf with
  | nil => rfl
  | cons d rest ih =>
    have hfind : ps.find? (fun p => lpre p (d :: rest)) = none := by
      rw [List.find?_eq_none]
      intro p hp hlp
      obtain ⟨c, hcp, hcbad⟩ := hbad p hp
      have hpre : p <+: d :: rest := (lpre_iff p (d :: rest)).mp hlp
      have := hsuf c (hpre.subset hcp)
      rw [hcbad] at this
      exact Bool.noConfusion this
    rw [reSearchCap_cons_of_find_none _ _ _ _ hfind]
    exact ih fun c hc => hsuf c (List.mem_cons_of_mem _ hc)

/-- Characters of the id alphabet are never excluded from the capture
class of the video patterns. -/
theorem vidIdChar_allowed {c : Char} (h : vidIdChar c = true) : vidAllowed c = true := by
  have h1 : c ≠ '&' := by rintro rfl; revert h; decide
  have h2 : c ≠ '\n' := by rintro rfl; revert h; decide
  have h3 : c ≠ '?' := by rintro rfl; revert h; decide
  have h4 : c ≠ '#' := by rintro rfl; revert h; decide
  simp [vidAllowed, vidExcluded, h1, h2, h3, h4]

/-- Appending a fresh key to an association list makes it found by
lookup. -/
theorem lookup_append_self {β : Type} (l : List (String × β)) (k : String) (v : β)
    (h : l.lookup k = none) : (l ++ [(k, v)]).lookup k = some v := by
  induction l with
  | nil => simp [List.lookup]
  | cons kv l ih =>
    obtain ⟨k', v'⟩ := kv
    rw [List.cons_append]
    by_cases hk : (k == k') = true
    · simp [List.lookup, hk] at h
    · rw [Bool.not_eq_true] at hk
      have h' : l.lookup k = none := by simpa [List.lookup, hk] using h
      simpa [List.lookup, hk] using ih h'

/-- The two clipboard failure messages are distinct, whatever content
the invalid-content message carries. -/
theorem clipboardWrapMsg_ne_requires (m : String) :
    clipboardWrapMsg m ≠ clipboardRequiresMsg := by
  intro h
  have h2 : (clipboardWrapMsg m).data[1]? = clipboardRequiresMsg.data[1]? :=
    congrArg (fun s => s.data[1]?) h
  have h3 : some 'o' = some 'l' := h2
  exact absurd h3 (by decide)

/-- Lookup finds a key just written at the head of an association
list. -/
theorem lookup_cons_self {β : Type} (rec : β) (l : List (String × β)) (p : String) :
    ((p, rec) :: l).lookup p = some rec := by
  simp [List.lookup]

/-- Every request issued by the pagination loop asks for at most 50
items. -/
theorem fetchLoop_reqs_le (pageOf : Option String → Nat → Page) (max_results : Nat) :
    ∀ fuel videos token v rs,
      fetchLoop pageOf max_results fuel videos token = some (v, rs) →
      ∀ r ∈ rs, r ≤ 50 := by
  intro fuel
  induction fuel with
  | zero => intro videos token v rs h; exact absurd h (by simp [fetchLoop])
  | succ fuel ih =>
    intro videos token v rs h
    simp only [fetchLoop] at h
    split at h
    · split at h
      · simp only [Option.some.injEq, Prod.mk.injEq] at h
        obtain ⟨-, hrs⟩ := h
        subst hrs
        intro r hr
        rw [List.mem_singleton] at hr
        subst hr
        exact min_le_left _ _
      · rw [Option.map_eq_some'] at h
        obtain ⟨⟨v', rs'⟩, hfl, heq⟩ := h
        simp only [Prod.mk.injEq] at heq
        obtain ⟨-, hrs⟩ := heq
        subst hrs
        intro r hr
        rw [List.mem_cons] at hr
        rcases hr with hr | hr
        · subst hr; exact min_le_left _ _
        · exact ih _ _ _ _ hfl r hr
    · simp only [Option.some.injEq, Prod.mk.injEq] at h
      obtain ⟨-, hrs⟩ := h
      subst hrs
      intro r hr
      exact absurd hr (List.not_mem_nil r)

/-- When the upstream honors the maxResults request parameter, the
pagination loop never collects more than max_results ids. -/
theorem fetchLoop_len_le (pageOf : Option String → Nat → Page) (max_results : Nat)
    (honest : ∀ t n, (pageOf t n).items.length ≤ n) :
    ∀ fuel videos token v rs, videos.length ≤ max_results →
      fetchLoop pageOf max_results fuel videos token = some (v, rs) →
      v.length ≤ max_results := by
  intro fuel
  induction fuel with
  | zero => intro videos token v rs _ h; exact absurd h (by simp [fetchLoop])
  | succ fuel ih =>
    intro videos token v rs hlen h
    simp only [fetchLoop] at h
    split at h
    · rename_i hlt
      have hb : (videos ++ (pageOf token (min 50 (max_results - videos.length))).items).length
          ≤ max_results := by
        rw [List.length_append]
        have h1 := honest token (min 50 (max_results - videos.length))
        have h2 : min 50 (max_results - videos.length) ≤ max_results - videos.length :=
          min_le_right _ _
        omega
      split at h
      · simp only [Option.some.injEq, Prod.mk.injEq] at h
        obtain ⟨hv, -⟩ := h
        subst hv
        exact hb
      · rw [Option.map_eq_some'] at h
        obtain ⟨⟨v', rs'⟩, hfl, heq⟩ := h
        simp only [Prod.mk.injEq] at heq
        obtain ⟨hv, -⟩ := heq
        subst hv
        exact ih _ _ _ _ hb hfl
    · simp only [Option.some.injEq, Prod.mk.injEq] at h
      obtain ⟨hv, -⟩ := h
      subst hv
      exact hlen

/-! Per-shape extraction lemmas feeding the URL-shape claim. -/

/-- Extraction from the watch URL shape. -/
theorem extract_video_watch (id : String) (h1 : id.data ≠ [])
    (h2 : ∀ c ∈ id.data, vidIdChar c = true) :
    extract_video_id ("https://www.youtube.com/watch?v=" ++ id) = .ok id := by
  have htw : id.data.takeWhile vidAllowed = id.data :=
    takeWhile_eq_self_of_all fun c hc => vidIdChar_allowed (h2 c hc)
  have hlen : (("https://www.youtube.com/watch?v=" ++ id).length == 11) = false := by
    refine beq_eq_false_iff_ne.mpr ?_
    rw [String.length_append]
    have h32 : ("https://www.youtube.com/watch?v=" : String).length = 32 := rfl
    omega
  have hsearch : reSearchCap vidPattern1 vidAllowed
      ("https://www.youtube.com/watch?v=" ++ id).data = some id.data := by
    rw [String.data_append,
        show ("https://www.youtube.com/watch?v=" : String).data ++ id.data
          = "https://www.".data ++ ("youtube.com/watch?v=".data ++ id.data) from rfl,
        reSearchCap_append_skip vidPattern1 vidAllowed "https://www.".data
          ("youtube.com/watch?v=".data ++ id.data) (by decide) (by decide)]
    exact reSearchCap_append_hit vidPattern1 vidAllowed "youtube.com/watch?v=".data id.data
      rfl (by decide) htw h1
  unfold extract_video_id
  rw [hlen, Bool.false_and, hsearch]
  rfl

/-- Extraction from the short URL shape. -/
theorem extract_video_short (id : String) (h1 : id.data ≠ [])
    (h2 : ∀ c ∈ id.data, vidIdChar c = true) :
    extract_video_id ("https://youtu.be/" ++ id) = .ok id := by
  have htw : id.data.takeWhile vidAllowed = id.data :=
    takeWhile_eq_self_of_all fun c hc => vidIdChar_allowed (h2 c hc)
  have hlen : (("https://youtu.be/" ++ id).length == 11) = false := by
    refine beq_eq_false_iff_ne.mpr ?_
    rw [String.length_append]
    have h17 : ("https://youtu.be/" : String).length = 17 := rfl
    omega
  have hsearch : reSearchCap vidPattern1 vidAllowed
      ("https://youtu.be/" ++ id).data = some id.data := by
    rw [String.data_append,
        show ("https://youtu.be/" : String).data ++ id.data
          = "https://".data ++ ("youtu.be/".data ++ id.data) from rfl,
        reSearchCap_append_skip vidPattern1 vidAllowed "https://".data
          ("youtu.be/".data ++ id.data) (by decide) (by decide)]
    exact reSearchCap_append_hit vidPattern1 vidAllowed "youtu.be/".data id.data
      rfl (by decide) htw h1
  unfold extract_video_id
  rw [hlen, Bool.false_and, hsearch]
  rfl

/-- Extraction from the embed URL shape. -/
theorem extract_video_embed (id : String) (h1 : id.data ≠ [])
    (h2 : ∀ c ∈ id.data, vidIdChar c = true) :
    extract_video_id ("https://www.youtube.com/embed/" ++ id) = .ok id := by
  have htw : id.data.takeWhile vidAllowed = id.data :=
    takeWhile_eq_self_of_all fun c hc => vidIdChar_allowed (h2 c hc)
  have hlen : (("https://www.youtube.com/embed/" ++ id).length == 11) = false := by
    refine beq_eq_false_iff_ne.mpr ?_
    rw [String.length_append]
    have h30 : ("https://www.youtube.com/embed/" : String).length = 30 := rfl
    omega
  have hsearch : reSearchCap vidPattern1 vidAllowed
      ("https://www.youtube.com/embed/" ++ id).data = some id.data := by
    rw [String.data_append,
        show ("https://www.youtube.com/embed/" : String).data ++ id.data
          = "https://www.".data ++ ("youtube.com/embed/".data ++ id.data) from rfl,
        reSearchCap_append_skip vidPattern1 vidAllowed "https://www.".data
          ("youtube.com/embed/".data ++ id.data) (by decide) (by decide)]
    exact reSearchCap_append_hit vidPattern1 vidAllowed "youtube.com/embed/".data id.data
      rfl (by decide) htw h1
  unfold extract_video_id
  rw [hlen, Bool.false_and, hsearch]
  rfl

/-- Extraction from the bare v URL shape, which only the second pattern
matches. -/
theorem extract_video_vee (id : String) (h1 : id.data ≠ [])
    (h2 : ∀ c ∈ id.data, vidIdChar c = true) :
    extract_video_id ("https://www.youtube.com/v/" ++ id) = .ok id := by
  have htw : id.data.takeWhile vidAllowed = id.data :=
    takeWhile_eq_self_of_all fun c hc => vidIdChar_allowed (h2 c hc)
  have hlen : (("https://www.youtube.com/v/" ++ id).length == 11) = false := by
    refine beq_eq_false_iff_ne.mpr ?_
    rw [String.length_append]
    have h26 : ("https://www.youtube.com/v/" : String).length = 26 := rfl
    omega
  have hs1 : reSearchCap vidPattern1 vidAllowed
      ("https://www.youtube.com/v/" ++ id).data = none := by
    rw [String.data_append,
        show ("https://www.youtube.com/v/" : String).data ++ id.data
          = "https://www.".data ++ ('y' :: ("outube.com/v/".data ++ id.data)) from rfl,
        reSearchCap_append_skip vidPattern1 vidAllowed "https://www.".data
          ('y' :: ("outube.com/v/".data ++ id.data)) (by decide) (by decide),
        reSearchCap_cons_of_find_none vidPattern1 vidAllowed 'y'
          ("outube.com/v/".data ++ id.data) rfl,
        reSearchCap_append_skip vidPattern1 vidAllowed "outube.com/v/".data id.data
          (by decide) (by decide)]
    exact reSearchCap_eq_none_of_good vidPattern1 vidAllowed vidIdChar id.data h2 (by decide)
  have hs2 : reSearchCap vidPattern2 vidAllowed
      ("https://www.youtube.com/v/" ++ id).data = some id.data := by
    rw [String.data_append,
        show ("https://www.youtube.com/v/" : String).data ++ id.data
          = "https://www.".data ++ ("youtube.com/v/".data ++ id.data) from rfl,
        reSearchCap_append_skip vidPattern2 vidAllowed "https://www.".data
          ("youtube.com/v/".data ++ id.data) (by decide) (by decide)]
    exact reSearchCap_append_hit vidPattern2 vidAllowed "youtube.com/v/".data id.data
      rfl (by decide) htw h1
  unfold extract_video_id
  rw [hlen, Bool.false_and, hs1, hs2]
  rfl

/-! Claims. -/

/-- C4: every input string of exactly 11 alphanumeric characters is
returned unchanged by extract_video_id, without attempting any URL
pattern. -/
theorem extract_video_id_bare_id (s : String) (h1 : s.length = 11)
    (h2 : s.data.all Char.isAlphanum = true) :
    extract_video_id s = .ok s := by
  have hne : s.data.isEmpty = false := by
    cases hd : s.data with
    | nil =>
      have h0 : s.length = 0 := by rw [String.length, hd]; rfl
      omega
    | cons a as => rfl
  have hc : (s.length == 11 && str_isalnum s) = true := by
    simp [str_isalnum, h1, h2, hne]
  unfold extract_video_id
  rw [hc]
  rfl

/-- Witness for C4 at the id of the scenario URL. -/
theorem extract_video_id_bare_id_witness :
    extract_video_id "dQw4w9WgXcQ" = .ok "dQw4w9WgXcQ" :=
  extract_video_id_bare_id "dQw4w9WgXcQ" (by decide) (by decide)

/-- C10: a bare 11 character input containing a hyphen or underscore
fails the alphanumeric fast path, so when no URL pattern matches it
either, extract_video_id fails with the unresolvable-identifier
error. -/
theorem extract_video_id_dash_underscore (s : String) (h1 : s.length = 11)
    (h2 : '-' ∈ s.data ∨ '_' ∈ s.data)
    (h3 : reSearchCap vidPattern1 vidAllowed s.data = none)
    (h4 : reSearchCap vidPattern2 vidAllowed s.data = none) :
    extract_video_id s = .error ("Could not extract video ID from: " ++ s) := by
  have halnum : s.data.all Char.isAlphanum = false := by
    rw [List.all_eq_false]
    rcases h2 with hm | hm
    · exact ⟨'-', hm, by decide⟩
    · exact ⟨'_', hm, by decide⟩
  have hc : (s.length == 11 && str_isalnum s) = false := by
    simp [str_isalnum, halnum]
  unfold extract_video_id
  rw [hc, h3, h4]
  rfl

/-- Witness for C10 at a dashed 11 character input. -/
theorem extract_video_id_dash_underscore_witness :
    extract_video_id "dQw4w9WgXc-" = .error ("Could not extract video ID from: " ++ "dQw4w9WgXc-") :=
  extract_video_id_dash_underscore "dQw4w9WgXc-" (by decide) (Or.inl (by decide)) rfl rfl

/-- C1 counterexample: an input that is 34 characters long, starts with
PL and also matches the channel-URL shape is returned unchanged by
extract_playlist_id instead of failing with the channel error, because
the PL fast path is checked first. -/
theorem extract_playlist_id_channel_cex :
    _is_channel_url "PLyoutube.com/channel/abcdefghijkl" = true ∧
    extract_playlist_id "PLyoutube.com/channel/abcdefghijkl"
      = .ok "PLyoutube.com/channel/abcdefghijkl" :=
  ⟨rfl, rfl⟩

/-- C1 amended: every 34 character input starting with PL is returned
unchanged; every input matching one of the four channel-URL shapes that
is not such a 34 character PL string fails with the channel
wrong-resource error. -/
theorem extract_playlist_id_spec :
    (∀ s : String, s.length = 34 → lpre "PL".data s.data = true →
        extract_playlist_id s = .ok s) ∧
    (∀ s : String, _is_channel_url s = true →
        ¬(s.length = 34 ∧ lpre "PL".data s.data = true) →
        extract_playlist_id s = .error channelUrlMsg) := by
  constructor
  · intro s h1 h2
    have hc : (s.length == 34 && lpre "PL".data s.data) = true := by simp [h1, h2]
    unfold extract_playlist_id
    rw [hc]
    rfl
  · intro s h1 h2
    have hc : (s.length == 34 && lpre "PL".data s.data) = false := by
      by_contra hcc
      rw [Bool.not_eq_false, Bool.and_eq_true, beq_iff_eq] at hcc
      exact h2 hcc
    unfold extract_playlist_id
    rw [hc]
    rw [if_neg (by simp), if_pos h1]

/-- Witness for the amended C1 at a bare playlist id and a channel
URL. -/
theorem extract_playlist_id_spec_witness :
    extract_playlist_id "PLabcdefghijklmnopqrstuvwxyzABCDEF"
        = .ok "PLabcdefghijklmnopqrstuvwxyzABCDEF" ∧
    extract_playlist_id "https://www.youtube.com/channel/UC123"
        = .error channelUrlMsg :=
  ⟨extract_playlist_id_spec.1 "PLabcdefghijklmnopqrstuvwxyzABCDEF" (by decide) (by decide),
   extract_playlist_id_spec.2 "https://www.youtube.com/channel/UC123" (by decide) (by decide)⟩

/-- C5: for every id over the video-id alphabet embedded in any of the
four canonical URL shapes, extract_video_id extracts exactly that id;
and the scenario input of the short URL with the id dQw4w9WgXcQ resolves
to dQw4w9WgXcQ. -/
theorem extract_video_id_url_shapes :
    (∀ id : String, id.data ≠ [] → (∀ c ∈ id.data, vidIdChar c = true) →
        extract_video_id ("https://www.youtube.com/watch?v=" ++ id) = .ok id ∧
        extract_video_id ("https://youtu.be/" ++ id) = .ok id ∧
        extract_video_id ("https://www.youtube.com/embed/" ++ id) = .ok id ∧
        extract_video_id ("https://www.youtube.com/v/" ++ id) = .ok id) ∧
    extract_video_id "https://youtu.be/dQw4w9WgXcQ" = .ok "dQw4w9WgXcQ" :=
  ⟨fun id h1 h2 =>
    ⟨extract_video_watch id h1 h2, extract_video_short id h1 h2,
     extract_video_embed id h1 h2, extract_video_vee id h1 h2⟩,
   rfl⟩

/-- Witness for C5 at the scenario id in all four shapes. -/
theorem extract_video_id_url_shapes_witness :
    extract_video_id ("https://www.youtube.com/watch?v=" ++ "dQw4w9WgXcQ") = .ok "dQw4w9WgXcQ" ∧
    extract_video_id ("https://youtu.be/" ++ "dQw4w9WgXcQ") = .ok "dQw4w9WgXcQ" ∧
    extract_video_id ("https://www.youtube.com/embed/" ++ "dQw4w9WgXcQ") = .ok "dQw4w9WgXcQ" ∧
    extract_video_id ("https://www.youtube.com/v/" ++ "dQw4w9WgXcQ") = .ok "dQw4w9WgXcQ" :=
  extract_video_id_url_shapes.1 "dQw4w9WgXcQ" (by decide) (by decide)

/-- C6: get_url_from_clipboard fails with the pyperclip-missing message
when clipboard access is unavailable, and with the wrapped
invalid-content message, distinct from the former, whenever the pasted
text contains neither youtube.com nor youtu.be. -/
theorem get_url_from_clipboard_spec :
    (∀ pasteResult, get_url_from_clipboard false pasteResult = .error clipboardRequiresMsg) ∧
    (∀ raw : String,
        subOccurs "youtube.com".data (pyStrip raw).data = false →
        subOccurs "youtu.be".data (pyStrip raw).data = false →
        get_url_from_clipboard true (.ok raw)
            = .error (clipboardWrapMsg (clipboardInvalidMsg (pyStrip raw))) ∧
        clipboardWrapMsg (clipboardInvalidMsg (pyStrip raw)) ≠ clipboardRequiresMsg) := by
  refine ⟨fun pasteResult => rfl, fun raw h1 h2 => ⟨?_, clipboardWrapMsg_ne_requires _⟩⟩
  have hstep : get_url_from_clipboard true (.ok raw)
      = if (subOccurs "youtube.com".data (pyStrip raw).data
            || subOccurs "youtu.be".data (pyStrip raw).data) = true
        then .ok (pyStrip raw)
        else .error (clipboardWrapMsg (clipboardInvalidMsg (pyStrip raw))) := rfl
  rw [hstep, h1, h2]
  rfl

/-- Witness for C6 at an unavailable clipboard and at pasted content
with no YouTube marker. -/
theorem get_url_from_clipboard_spec_witness :
    get_url_from_clipboard false (.ok "x") = .error clipboardRequiresMsg ∧
    get_url_from_clipboard true (.ok "hello")
        = .error (clipboardWrapMsg (clipboardInvalidMsg (pyStrip "hello"))) ∧
    clipboardWrapMsg (clipboardInvalidMsg (pyStrip "hello")) ≠ clipboardRequiresMsg :=
  ⟨get_url_from_clipboard_spec.1 (.ok "x"),
   (get_url_from_clipboard_spec.2 "hello" (by decide) (by decide)).1,
   (get_url_from_clipboard_spec.2 "hello" (by decide) (by decide)).2⟩

/-- C2 counterexample: for a record whose summaries already hold the
requested template, the first call is a cache hit with zero completion
calls and leaves record and store unchanged, so the identical second
call is also a hit and the two calls issue zero completion calls in
total, not exactly one as claimed for every record. -/
theorem summarize_transcript_cached_twice_cex :
    summarize_transcript ⟨fun _ => some ⟨"T", "C", "D"⟩, fun _ => some [], fun _ => "GEN"⟩
        (fun _ => "tpl") [] ⟨"vid", "T", "C", "D", [], "full", [("default", "S")]⟩ "default"
      = some ("S", ⟨"vid", "T", "C", "D", [], "full", [("default", "S")]⟩, [], 0) ∧
    (0 : Nat) + 0 ≠ 1 :=
  ⟨rfl, by decide⟩

/-- C2 amended: a successful call followed by a second call with the
same template name returns the identical summary string, leaves record
and store untouched, makes no completion call the second time, and the
first call makes exactly one completion call when the template was not
already cached and zero when it was. -/
theorem summarize_transcript_idem (env : Env) (loadTemplate : String → String)
    (fs : List (String × TranscriptRecord)) (rec : TranscriptRecord) (t : String)
    (s1 : String) (r1 : TranscriptRecord) (fs1 : List (String × TranscriptRecord)) (c1 : Nat)
    (h : summarize_transcript env loadTemplate fs rec t = some (s1, r1, fs1, c1)) :
    summarize_transcript env loadTemplate fs1 r1 t = some (s1, r1, fs1, 0) ∧
    c1 = if (rec.summaries.lookup t).isSome then 0 else 1 := by
  simp only [summarize_transcript] at h ⊢
  cases hl : rec.summaries.lookup t with
  | some s0 =>
    rw [hl] at h
    simp only [Option.some.injEq, Prod.mk.injEq] at h
    obtain ⟨rfl, rfl, rfl, rfl⟩ := h
    rw [hl]
    simp [hl]
  | none =>
    rw [hl] at h
    cases hp : get_transcript_path env rec.video_id with
    | none => rw [hp] at h; exact absurd h (by simp)
    | some path =>
      rw [hp] at h
      simp only [Option.some.injEq, Prod.mk.injEq] at h
      obtain ⟨rfl, rfl, rfl, rfl⟩ := h
      have hl2 := lookup_append_self rec.summaries t
        (env.complete (formatTranscript (loadTemplate t) rec.full_text)) hl
      constructor
      · rw [hl2]
      · simp [hl]

/-- Witness for the amended C2: a miss-then-hit pair on an initially
uncached template. -/
theorem summarize_transcript_idem_witness :
    summarize_transcript ⟨fun _ => some ⟨"T", "C", "D"⟩, fun _ => some [], fun _ => "GEN"⟩
        (fun _ => "tpl")
        [("transcripts/C/vid_T.json", ⟨"vid", "T", "C", "D", [], "full", [("default", "GEN")]⟩)]
        ⟨"vid", "T", "C", "D", [], "full", [("default", "GEN")]⟩ "default"
      = some ("GEN", ⟨"vid", "T", "C", "D", [], "full", [("default", "GEN")]⟩,
          [("transcripts/C/vid_T.json",
            ⟨"vid", "T", "C", "D", [], "full", [("default", "GEN")]⟩)], 0) :=
  (summarize_transcript_idem ⟨fun _ => some ⟨"T", "C", "D"⟩, fun _ => some [], fun _ => "GEN"⟩
    (fun _ => "tpl") [] ⟨"vid", "T", "C", "D", [], "full", []⟩ "default"
    "GEN" ⟨"vid", "T", "C", "D", [], "full", [("default", "GEN")]⟩
    [("transcripts/C/vid_T.json", ⟨"vid", "T", "C", "D", [], "full", [("default", "GEN")]⟩)]
    1 rfl).1

/-- C9: summarize_transcript changes at most the summaries of the
record, and only by appending the entry for the requested template
name; every other field and every pre-existing entry is unchanged. -/
theorem summarize_transcript_frame (env : Env) (loadTemplate : String → String)
    (fs : List (String × TranscriptRecord)) (rec : TranscriptRecord) (t : String)
    (s : String) (r' : TranscriptRecord) (fs' : List (String × TranscriptRecord)) (n : Nat)
    (h : summarize_transcript env loadTemplate fs rec t = some (s, r', fs', n)) :
    r'.video_id = rec.video_id ∧ r'.title = rec.title ∧ r'.channel = rec.channel ∧
    r'.published_at = rec.published_at ∧ r'.transcript = rec.transcript ∧
    r'.full_text = rec.full_text ∧
    (r'.summaries = rec.summaries ∨ r'.summaries = rec.summaries ++ [(t, s)]) := by
  simp only [summarize_transcript] at h
  cases hl : rec.summaries.lookup t with
  | some s0 =>
    rw [hl] at h
    simp only [Option.some.injEq, Prod.mk.injEq] at h
    obtain ⟨rfl, rfl, rfl, rfl⟩ := h
    exact ⟨rfl, rfl, rfl, rfl, rfl, rfl, Or.inl rfl⟩
  | none =>
    rw [hl] at h
    cases hp : get_transcript_path env rec.video_id with
    | none => rw [hp] at h; exact absurd h (by simp)
    | some path =>
      rw [hp] at h
      simp only [Option.some.injEq, Prod.mk.injEq] at h
      obtain ⟨rfl, rfl, rfl, rfl⟩ := h
      exact ⟨rfl, rfl, rfl, rfl, rfl, rfl, Or.inr rfl⟩

/-- Witness for C9 at a concrete cache miss. -/
theorem summarize_transcript_frame_witness :
    (⟨"vid", "T", "C", "D", [], "full", [("default", "GEN")]⟩ : TranscriptRecord).video_id
        = (⟨"vid", "T", "C", "D", [], "full", []⟩ : TranscriptRecord).video_id ∧
    (⟨"vid", "T", "C", "D", [], "full", [("default", "GEN")]⟩ : TranscriptRecord).title
        = (⟨"vid", "T", "C", "D", [], "full", []⟩ : TranscriptRecord).title ∧
    (⟨"vid", "T", "C", "D", [], "full", [("default", "GEN")]⟩ : TranscriptRecord).channel
        = (⟨"vid", "T", "C", "D", [], "full", []⟩ : TranscriptRecord).channel ∧
    (⟨"vid", "T", "C", "D", [], "full", [("default", "GEN")]⟩ : TranscriptRecord).published_at
        = (⟨"vid", "T", "C", "D", [], "full", []⟩ : TranscriptRecord).published_at ∧
    (⟨"vid", "T", "C", "D", [], "full", [("default", "GEN")]⟩ : TranscriptRecord).transcript
        = (⟨"vid", "T", "C", "D", [], "full", []⟩ : TranscriptRecord).transcript ∧
    (⟨"vid", "T", "C", "D", [], "full", [("default", "GEN")]⟩ : TranscriptRecord).full_text
        = (⟨"vid", "T", "C", "D", [], "full", []⟩ : TranscriptRecord).full_text ∧
    ((⟨"vid", "T", "C", "D", [], "full", [("default", "GEN")]⟩ : TranscriptRecord).summaries
        = (⟨"vid", "T", "C", "D", [], "full", []⟩ : TranscriptRecord).summaries ∨
      (⟨"vid", "T", "C", "D", [], "full", [("default", "GEN")]⟩ : TranscriptRecord).summaries
        = (⟨"vid", "T", "C", "D", [], "full", []⟩ : TranscriptRecord).summaries
            ++ [("default", "GEN")]) :=
  summarize_transcript_frame
    ⟨fun _ => some ⟨"T", "C", "D"⟩, fun _ => some [], fun _ => "GEN"⟩ (fun _ => "tpl") []
    ⟨"vid", "T", "C", "D", [], "full", []⟩ "default" "GEN"
    ⟨"vid", "T", "C", "D", [], "full", [("default", "GEN")]⟩
    [("transcripts/C/vid_T.json", ⟨"vid", "T", "C", "D", [], "full", [("default", "GEN")]⟩)]
    1 rfl

/-- C3: a successful download_transcript call followed by a second call
with the same video id and unchanged services returns the identical
record and store and performs no transcript extraction call, because the
record file written (or found) by the first call is parsed and returned
verbatim. -/
theorem download_transcript_idem (env : Env) (fs : List (String × TranscriptRecord))
    (video_id : String) (r : TranscriptRecord) (fs' : List (String × TranscriptRecord)) (n : Nat)
    (h : download_transcript env fs video_id = some (r, fs', n)) :
    download_transcript env fs' video_id = some (r, fs', 0) := by
  simp only [download_transcript] at h ⊢
  cases hp : get_transcript_path env video_id with
  | none => rw [hp] at h; exact absurd h (by simp)
  | some path =>
    rw [hp] at h
    dsimp only at h ⊢
    cases hfs : fs.lookup path with
    | some rec =>
      rw [hfs] at h
      simp only [Option.some.injEq, Prod.mk.injEq] at h
      obtain ⟨rfl, rfl, rfl⟩ := h
      rw [hfs]
    | none =>
      rw [hfs] at h
      cases hft : env.fetchTranscript video_id with
      | none => rw [hft] at h; exact absurd h (by simp)
      | some transcript_list =>
        rw [hft] at h
        cases hvi : env.videoInfo video_id with
        | none => rw [hvi] at h; exact absurd h (by simp)
        | some info =>
          rw [hvi] at h
          simp only [Option.some.injEq, Prod.mk.injEq] at h
          obtain ⟨rfl, rfl, rfl⟩ := h
          rw [lookup_cons_self]

/-- Witness for C3: a second call after a fresh download parses the
written file. -/
theorem download_transcript_idem_witness :
    download_transcript
        ⟨fun _ => some ⟨"T", "C", "D"⟩, fun _ => some [⟨"hello", 0, 1⟩], fun _ => "GEN"⟩
        [("transcripts/C/vid_T.json",
          ⟨"vid", "T", "C", "D", [⟨"hello", 0, 1⟩], "hello", []⟩)] "vid"
      = some (⟨"vid", "T", "C", "D", [⟨"hello", 0, 1⟩], "hello", []⟩,
          [("transcripts/C/vid_T.json",
            ⟨"vid", "T", "C", "D", [⟨"hello", 0, 1⟩], "hello", []⟩)], 0) :=
  download_transcript_idem
    ⟨fun _ => some ⟨"T", "C", "D"⟩, fun _ => some [⟨"hello", 0, 1⟩], fun _ => "GEN"⟩ [] "vid"
    ⟨"vid", "T", "C", "D", [⟨"hello", 0, 1⟩], "hello", []⟩
    [("transcripts/C/vid_T.json", ⟨"vid", "T", "C", "D", [⟨"hello", 0, 1⟩], "hello", []⟩)]
    1 rfl

/-- C7: get_channel_videos fails with the not-found error when the
channel lookup returns no items; both listing functions only issue page
requests of size at most 50; when the upstream honors the request size
they return at most max_results ids; and the pagination loop stops as
soon as max_results ids are collected or a response carries no
continuation token. -/
theorem listing_pagination_spec :
    (∀ (env : ListEnv) (cid : String) (max_results fuel : Nat),
        _is_playlist_url cid = false → env.channelUploads cid = [] →
        get_channel_videos env cid max_results fuel = .error (channelNotFoundMsg cid)) ∧
    (∀ (env : ListEnv) (cid : String) (max_results fuel : Nat)
        (v : List String) (rs : List Nat),
        get_channel_videos env cid max_results fuel = .ok (some (v, rs)) →
        (∀ r ∈ rs, r ≤ 50) ∧
        ((∀ pid t n, (env.playlistItems pid t n).items.length ≤ n) →
          v.length ≤ max_results)) ∧
    (∀ (env : ListEnv) (pid : String) (max_results fuel : Nat)
        (v : List String) (rs : List Nat),
        get_playlist_videos env pid max_results fuel = some (v, rs) →
        (∀ r ∈ rs, r ≤ 50) ∧
        ((∀ pid2 t n, (env.playlistItems pid2 t n).items.length ≤ n) →
          v.length ≤ max_results)) ∧
    (∀ (pageOf : Option String → Nat → Page) (max_results fuel : Nat)
        (videos : List String) (token : Option String),
        ¬ videos.length < max_results →
        fetchLoop pageOf max_results (fuel + 1) videos token = some (videos, [])) ∧
    (∀ (pageOf : Option String → Nat → Page) (max_results fuel : Nat)
        (videos : List String) (token : Option String),
        videos.length < max_results →
        (pageOf token (min 50 (max_results - videos.length))).nextPageToken = none →
        fetchLoop pageOf max_results (fuel + 1) videos token
          = some (videos ++ (pageOf token (min 50 (max_results - videos.length))).items,
              [min 50 (max_results - videos.length)])) := by
  refine ⟨?_, ?_, ?_, ?_, ?_⟩
  · intro env cid m f h1 h2
    unfold get_channel_videos
    rw [h1, h2]
    rfl
  · intro env cid m f v rs h
    unfold get_channel_videos at h
    by_cases hpl : _is_playlist_url cid = true
    · rw [if_pos hpl] at h
      exact absurd h (by simp)
    · rw [if_neg hpl] at h
      cases hcu : env.channelUploads cid with
      | nil => rw [hcu] at h; exact absurd h (by simp)
      | cons u us =>
        rw [hcu] at h
        have hfl : fetchLoop (env.playlistItems u) m f [] none = some (v, rs) := by
          dsimp only at h
          exact Except.ok.inj h
        exact ⟨fetchLoop_reqs_le _ _ _ _ _ _ _ hfl,
          fun honest =>
            fetchLoop_len_le _ _ (fun t n => honest u t n) _ _ _ _ _ (by simp) hfl⟩
  · intro env pid m f v rs h
    unfold get_playlist_videos at h
    exact ⟨fetchLoop_reqs_le _ _ _ _ _ _ _ h,
      fun honest =>
        fetchLoop_len_le _ _ (fun t n => honest pid t n) _ _ _ _ _ (by simp) h⟩
  · intro pageOf m f videos token hge
    simp only [fetchLoop]
    rw [if_neg hge]
  · intro pageOf m f videos token hlt htok
    simp only [fetchLoop]
    rw [if_pos hlt, htok]

/-- Witness for C7 at a missing channel, a one-page channel listing, a
one-page playlist listing and the two stopping conditions. -/
theorem listing_pagination_spec_witness :
    get_channel_videos ⟨fun _ => [], fun _ _ _ => ⟨[], none⟩⟩ "nochan" 10 3
        = .error (channelNotFoundMsg "nochan") ∧
    (∀ r ∈ ([10] : List Nat), r ≤ 50) ∧
    (["v1"] : List String).length ≤ 10 ∧
    (∀ r ∈ ([5] : List Nat), r ≤ 50) ∧
    fetchLoop (fun _ _ => ⟨["v1"], none⟩) 0 3 [] none = some ([], []) ∧
    fetchLoop (fun _ n => ⟨if n = 0 then [] else ["v1"], none⟩) 10 3 [] none
        = some (["v1"], [10]) :=
  ⟨listing_pagination_spec.1 ⟨fun _ => [], fun _ _ _ => ⟨[], none⟩⟩ "nochan" 10 3
      (by decide) rfl,
   (listing_pagination_spec.2.1 ⟨fun _ => ["up"], fun _ _ n => ⟨if n = 0 then [] else ["v1"], none⟩⟩
      "chan" 10 3 ["v1"] [10] rfl).1,
   (listing_pagination_spec.2.1 ⟨fun _ => ["up"], fun _ _ n => ⟨if n = 0 then [] else ["v1"], none⟩⟩
      "chan" 10 3 ["v1"] [10] rfl).2
      (by intro pid t n; cases n with | zero => simp | succ k => simp),
   (listing_pagination_spec.2.2.1 ⟨fun _ => ["up"], fun _ _ n => ⟨if n = 0 then [] else ["v1"], none⟩⟩
      "pl" 5 3 ["v1"] [5] rfl).1,
   listing_pagination_spec.2.2.2.1 (fun _ _ => ⟨["v1"], none⟩) 0 2 [] none (by simp),
   listing_pagination_spec.2.2.2.2 (fun _ n => ⟨if n = 0 then [] else ["v1"], none⟩) 10 2 [] none
      (by simp) rfl⟩

/-- C8: when the audio file for a video and template pair already exists
with nonzero size, play_summary_audio issues no TTS call and leaves the
audio store unchanged, for every requested voice; the voice does not
enter the cache path. -/
theorem play_summary_audio_cached (ttsSize : String → String → Nat)
    (afs : List (String × Nat)) (summary video_id template_name voice : String) (sz : Nat)
    (h1 : afs.lookup (get_audio_path video_id template_name) = some sz)
    (h2 : 0 < sz) :
    play_summary_audio ttsSize afs summary video_id template_name voice = (afs, 0) := by
  simp only [play_summary_audio]
  rw [h1]
  dsimp only
  rw [if_pos h2]

/-- Witness for C8 at a cached audio file and a voice differing from
the cached one. -/
theorem play_summary_audio_cached_witness :
    play_summary_audio (fun _ _ => 7) [("audio/vid_default_openai.mp3", 5)]
        "sum" "vid" "default" "nova"
      = ([("audio/vid_default_openai.mp3", 5)], 0) :=
  play_summary_audio_cached (fun _ _ => 7) [("audio/vid_default_openai.mp3", 5)]
    "sum" "vid" "default" "nova" 5 rfl (by decide)

end YT
